import Mathlib

/-!
# Verification of the rl-visualizer panel-grid frontend

Shallow embedding of the pure computations of the `rl-visualizer`
frontend (`src/frontend/src/`): the panel-grid layout of
`GridViewer.tsx` (`convertToGrid`, `drawGrid`, `drawPanel`), the
feature-inspection coordinate mapping of `FeatureViewer.tsx`
(`getFeatureCells` and the effect guard), the attribute filtering and
dtype partition of `Sidebar.tsx`, the fetch state updates of
`ImageViewer.tsx` / `GridViewer.tsx` / `TextViewer.tsx`, and the
keyboard navigation of `TimestepSlider`.

JavaScript numbers are modelled as rationals (`ℚ`) with `Int.floor` /
`Int.ceil` standing for `Math.floor` / `Math.ceil`; array indexing that
can fail (out-of-range access, access on `undefined`) is modelled with
`Option`.
-/

namespace RlViz

/-- `Math.ceil(a / b)` for natural `a`, `b` (the only uses in the code
have `b ≥ 1`; at `b = 0` the JS code would produce `NaN`/`Infinity`,
here `ceilDiv a 0 = 0`). -/
def ceilDiv (a b : Nat) : Nat := (a + b - 1) / b

/-- The `while (gridWidth * gridHeight < numPanels)` loop of
`convertToGrid` (GridViewer.tsx lines 106-109), with explicit fuel.
Each pass increments `gridWidth` and recomputes
`gridHeight = Math.ceil(numPanels / gridWidth)`; the fuel used by
`gridLayout` is shown below to be sufficient (the loop in fact exits on
its first test whenever `cols = ⌊√D⌋ ≥ 1`). -/
def layoutLoop : Nat → Nat → Nat → Nat × Nat
  | 0, cols, D => (cols, ceilDiv D cols)
  | fuel + 1, cols, D =>
    let rows := ceilDiv D cols
    if cols * rows < D then layoutLoop fuel (cols + 1) D else (cols, rows)

/-- The layout computation of `convertToGrid` (GridViewer.tsx lines
101-120): `gridWidth = Math.floor(Math.sqrt(numPanels))`,
`gridHeight = Math.ceil(numPanels / gridWidth)`, then the growth loop.
Returns `(gridWidth, gridHeight)`, i.e. `(cols, rows)`. -/
def gridLayout (D : Nat) : Nat × Nat := layoutLoop D (Nat.sqrt D) D

/-- The `Grid` interface of GridViewer.tsx: the panel stack together
with the computed grid dimensions (a `Panel` is just its `data`
matrix, kept here as `List (List ℚ)`). -/
structure Grid where
  panels : List (List (List ℚ))
  width : Nat
  height : Nat

/-- `convertToGrid` (GridViewer.tsx lines 101-120). -/
def convertToGrid (array : List (List (List ℚ))) : Grid :=
  let wh := gridLayout array.length
  { panels := array, width := wh.1, height := wh.2 }

lemma ceilDiv_nil_le (a b : Nat) (hb : 1 ≤ b) : a ≤ b * ceilDiv a b := by
  unfold ceilDiv
  have hd := Nat.div_add_mod (a + b - 1) b
  have hm := Nat.mod_lt (a + b - 1) (show 0 < b by omega)
  omega

lemma layoutLoop_exit (fuel cols D : Nat) (h : ¬ cols * ceilDiv D cols < D) :
    layoutLoop (fuel + 1) cols D = (cols, ceilDiv D cols) := by
  simp [layoutLoop, h]

lemma gridLayout_closed (D : Nat) (hD : 1 ≤ D) :
    gridLayout D = (Nat.sqrt D, ceilDiv D (Nat.sqrt D)) := by
  have hs : 1 ≤ Nat.sqrt D := Nat.sqrt_pos.mpr hD
  have hge : D ≤ Nat.sqrt D * ceilDiv D (Nat.sqrt D) :=
    ceilDiv_nil_le D (Nat.sqrt D) hs
  obtain ⟨f, rfl⟩ : ∃ f, D = f + 1 := ⟨D - 1, by omega⟩
  exact layoutLoop_exit f (Nat.sqrt (f + 1)) (f + 1) (by omega)

lemma gridLayout_eval (D s r : Nat) (hD : 1 ≤ D)
    (hs : s * s ≤ D ∧ D < (s + 1) * (s + 1)) (hr : ceilDiv D s = r) :
    gridLayout D = (s, r) := by
  have hsq : s = Nat.sqrt D := Nat.eq_sqrt.mpr hs
  rw [gridLayout_closed D hD, ← hsq, hr]

/-- C1: for every panel count `D ≥ 1`, `convertToGrid`'s layout starts
from `cols = ⌊√D⌋`, `rows = ⌈D / cols⌉` and grows `cols` while
`cols * rows < D`; the result satisfies `cols * rows ≥ D` (indeed the
loop exits at once, so the result is `(⌊√D⌋, ⌈D / ⌊√D⌋⌉)`), with
`D = 1 ↦ (1,1)`, `4 ↦ (2,2)`, `5 ↦ (2,3)`, `7 ↦ (2,4)`,
`10 ↦ (3,4)`. -/
theorem convertToGrid_layout_spec (D : Nat) (hD : 1 ≤ D) :
    gridLayout D = (Nat.sqrt D, ceilDiv D (Nat.sqrt D)) ∧
    D ≤ (gridLayout D).1 * (gridLayout D).2 ∧
    ((convertToGrid (List.replicate D [])).width,
      (convertToGrid (List.replicate D [])).height) = gridLayout D ∧
    gridLayout 1 = (1, 1) ∧ gridLayout 4 = (2, 2) ∧
    gridLayout 5 = (2, 3) ∧ gridLayout 7 = (2, 4) ∧
    gridLayout 10 = (3, 4) := by
  have hs : 1 ≤ Nat.sqrt D := Nat.sqrt_pos.mpr hD
  have hclosed := gridLayout_closed D hD
  refine ⟨hclosed, ?_, ?_,
    gridLayout_eval 1 1 1 (by decide) (by decide) (by decide),
    gridLayout_eval 4 2 2 (by decide) (by decide) (by decide),
    gridLayout_eval 5 2 3 (by decide) (by decide) (by decide),
    gridLayout_eval 7 2 4 (by decide) (by decide) (by decide),
    gridLayout_eval 10 3 4 (by decide) (by decide) (by decide)⟩
  · rw [hclosed]
    exact ceilDiv_nil_le D (Nat.sqrt D) hs
  · simp [convertToGrid]

/-- Witness for C1 at `D = 5`. -/
theorem convertToGrid_layout_spec_witness :
    1 ≤ 5 ∧
    (gridLayout 5 = (Nat.sqrt 5, ceilDiv 5 (Nat.sqrt 5)) ∧
      5 ≤ (gridLayout 5).1 * (gridLayout 5).2 ∧
      ((convertToGrid (List.replicate 5 [])).width,
        (convertToGrid (List.replicate 5 [])).height) = gridLayout 5 ∧
      gridLayout 1 = (1, 1) ∧ gridLayout 4 = (2, 2) ∧
      gridLayout 5 = (2, 3) ∧ gridLayout 7 = (2, 4) ∧
      gridLayout 10 = (3, 4)) :=
  ⟨by decide, convertToGrid_layout_spec 5 (by decide)⟩

/-! ## FeatureViewer.tsx: feature inspection -/

/-- JavaScript array access `l[i]` with a signed index: `undefined`
(here `none`) when `i` is negative or past the end. -/
def listGetZ {α : Type} (l : List α) (i : ℤ) : Option α :=
  if 0 ≤ i then l.get? i.toNat else none

/-- The nested access `panel[cellY][cellX]` of `getFeatureCells`
(FeatureViewer.tsx line 30); `none` models the access failing (a
`TypeError` on a missing row, or an `undefined` cell). -/
def cellOf (panel : List (List ℚ)) (i j : ℤ) : Option ℚ :=
  (listGetZ panel i).bind (fun row => listGetZ row j)

/-- The `array.map(panel => panel[cellY][cellX])` of `getFeatureCells`:
the whole extraction fails if any panel access does. -/
def mapCells (cy cx : ℤ) : List (List (List ℚ)) → Option (List ℚ)
  | [] => some []
  | p :: rest =>
    match cellOf p cy cx, mapCells cy cx rest with
    | some v, some vs => some (v :: vs)
    | _, _ => none

/-- `getFeatureCells` (FeatureViewer.tsx lines 24-31):
`panelHeight = array[0].length`, `panelWidth = array[0][0].length`,
`cellX = Math.floor(x * panelWidth)`, `cellY = Math.floor(y * panelHeight)`,
then the cross-section `array.map(panel => panel[cellY][cellX])`.
An empty `array` (or an empty first panel) makes `array[0].length`
(resp. `array[0][0].length`) throw, modelled by `none`. -/
def getFeatureCells (array : List (List (List ℚ))) (x y : ℚ) : Option (List ℚ) :=
  match array with
  | [] => none
  | p0 :: _ =>
    match p0 with
    | [] => none
    | r0 :: _ => mapCells ⌊y * (p0.length : ℚ)⌋ ⌊x * (r0.length : ℚ)⌋ array

/-- The `(cellX, cellY)` pair recorded by `setCellPos` inside
`getFeatureCells` (FeatureViewer.tsx line 29). -/
def featureCell (array : List (List (List ℚ))) (x y : ℚ) : Option (ℤ × ℤ) :=
  match array with
  | [] => none
  | p0 :: _ =>
    match p0 with
    | [] => none
    | r0 :: _ => some (⌊x * (r0.length : ℚ)⌋, ⌊y * (p0.length : ℚ)⌋)

/-- A GRID value with `D` panels, each `S × S`. -/
def HasShape (array : List (List (List ℚ))) (D S : Nat) : Prop :=
  array.length = D ∧ ∀ p ∈ array, p.length = S ∧ ∀ r ∈ p, r.length = S

lemma listGetZ_isSome {α : Type} (l : List α) (i : ℤ) (h0 : 0 ≤ i)
    (hl : i < (l.length : ℤ)) : ∃ a, listGetZ l i = some a := by
  have ht : i.toNat < l.length := by omega
  exact ⟨l.get ⟨i.toNat, ht⟩, by simp [listGetZ, h0, List.get?_eq_get ht]⟩

lemma cellOf_isSome (p : List (List ℚ)) (S : Nat) (cy cx : ℤ)
    (hp : p.length = S ∧ ∀ r ∈ p, r.length = S)
    (hcy : 0 ≤ cy ∧ cy < (S : ℤ)) (hcx : 0 ≤ cx ∧ cx < (S : ℤ)) :
    ∃ v, cellOf p cy cx = some v := by
  obtain ⟨row, hrow⟩ := listGetZ_isSome p cy hcy.1 (by rw [hp.1]; exact hcy.2)
  have hrowmem : row ∈ p := by
    unfold listGetZ at hrow
    rw [if_pos hcy.1] at hrow
    exact List.get?_mem hrow
  obtain ⟨v, hv⟩ := listGetZ_isSome row cx hcx.1
    (by rw [(hp.2 row hrowmem)]; exact hcx.2)
  exact ⟨v, by simp [cellOf, hrow, hv]⟩

lemma mapCells_eq (cy cx : ℤ) (array : List (List (List ℚ)))
    (h : ∀ p ∈ array, ∃ v, cellOf p cy cx = some v) :
    ∃ l, mapCells cy cx array = some l ∧ l.length = array.length ∧
      ∀ i, i < array.length → ∃ p v, array.get? i = some p ∧
        l.get? i = some v ∧ cellOf p cy cx = some v := by
  induction array with
  | nil => exact ⟨[], rfl, rfl, fun i hi => absurd hi (by simp)⟩
  | cons p rest ih =>
    obtain ⟨v, hv⟩ := h p (List.mem_cons_self p rest)
    obtain ⟨l, hl, hlen, hidx⟩ := ih (fun q hq => h q (List.mem_cons_of_mem p hq))
    refine ⟨v :: l, by simp [mapCells, hv, hl], by simp [hlen], ?_⟩
    intro i hi
    match i with
    | 0 => exact ⟨p, v, rfl, rfl, hv⟩
    | i + 1 =>
      obtain ⟨q, w, hq, hw, hc⟩ := hidx i (by simpa using hi)
      exact ⟨q, w, hq, hw, hc⟩

/-- The computed cell indices land in `[0, S)` for a normalized
coordinate in `[0, 1)`. -/
lemma floor_mul_mem (t : ℚ) (S : Nat) (hS : 1 ≤ S) (h0 : 0 ≤ t) (h1 : t < 1) :
    0 ≤ ⌊t * (S : ℚ)⌋ ∧ ⌊t * (S : ℚ)⌋ < (S : ℤ) := by
  constructor
  · exact Int.floor_nonneg.mpr (mul_nonneg h0 (by positivity))
  · rw [Int.floor_lt]
    push_cast
    calc t * (S : ℚ) < 1 * (S : ℚ) :=
          mul_lt_mul_of_pos_right h1 (by positivity)
    _ = (S : ℚ) := one_mul _

/-- C2: for a click `(x, y) ∈ [0,1) × [0,1)` on a GRID value of `D`
panels each `S × S`, `getFeatureCells` records the cell
`(⌊x·S⌋, ⌊y·S⌋)` and returns the cross-section vector
`[panel_0[cellY][cellX], …, panel_{D-1}[cellY][cellX]]` of length `D`
in panel order; with `S = 10`, a click at `(0.5, 0.5)` yields cell
`(5, 5)` and a click at `(0.99, 0.0)` yields cell `(9, 0)`. -/
theorem getFeatureCells_spec (array : List (List (List ℚ))) (D S : Nat)
    (x y : ℚ) (hD : 1 ≤ D) (hS : 1 ≤ S) (hshape : HasShape array D S)
    (hx : 0 ≤ x ∧ x < 1) (hy : 0 ≤ y ∧ y < 1) :
    featureCell array x y = some (⌊x * (S : ℚ)⌋, ⌊y * (S : ℚ)⌋) ∧
    (∃ l, getFeatureCells array x y = some l ∧ l.length = D ∧
      ∀ i, i < D → ∃ p v, array.get? i = some p ∧ l.get? i = some v ∧
        cellOf p ⌊y * (S : ℚ)⌋ ⌊x * (S : ℚ)⌋ = some v) ∧
    featureCell [List.replicate 10 (List.replicate 10 (0 : ℚ))]
      (1/2) (1/2) = some (5, 5) ∧
    featureCell [List.replicate 10 (List.replicate 10 (0 : ℚ))]
      (99/100) 0 = some (9, 0) := by
  obtain ⟨hlen, hpanels⟩ := hshape
  cases array with
  | nil => simp at hlen; omega
  | cons p0 rest =>
    have hp0 := hpanels p0 (List.mem_cons_self p0 rest)
    cases p0 with
    | nil => simp at hp0; omega
    | cons r0 rrest =>
      have hr0 : r0.length = S := hp0.2 r0 (List.mem_cons_self r0 rrest)
      have hS0 : (r0 :: rrest).length = S := hp0.1
      refine ⟨?_, ?_, ?_, ?_⟩
      · simp only [featureCell]
        rw [hr0, hS0]
      · obtain ⟨l, hl, hlen2, hidx⟩ :=
          mapCells_eq ⌊y * (S : ℚ)⌋ ⌊x * (S : ℚ)⌋ ((r0 :: rrest) :: rest)
            (fun p hp => cellOf_isSome p S _ _ (hpanels p hp)
              (floor_mul_mem y S hS hy.1 hy.2)
              (floor_mul_mem x S hS hx.1 hx.2))
        refine ⟨l, ?_, by omega, fun i hi => hidx i (by omega)⟩
        simp only [getFeatureCells]
        rw [hr0, hS0]
        exact hl
      · simp [featureCell]
        norm_num
      · simp [featureCell]
        norm_num

/-- Witness for C2: `D = 2` panels of size `S = 2`, click
`(1/2, 1/4)`. -/
theorem getFeatureCells_spec_witness :
    (1 ≤ 2 ∧
      HasShape [[[(1:ℚ), 2], [3, 4]], [[5, 6], [7, 8]]] 2 2 ∧
      (0 ≤ (1/2 : ℚ) ∧ (1/2 : ℚ) < 1) ∧ (0 ≤ (1/4 : ℚ) ∧ (1/4 : ℚ) < 1)) ∧
    (featureCell [[[(1:ℚ), 2], [3, 4]], [[5, 6], [7, 8]]] (1/2) (1/4) =
        some (⌊(1/2 : ℚ) * ((2 : Nat) : ℚ)⌋, ⌊(1/4 : ℚ) * ((2 : Nat) : ℚ)⌋) ∧
      (∃ l, getFeatureCells [[[(1:ℚ), 2], [3, 4]], [[5, 6], [7, 8]]]
          (1/2) (1/4) = some l ∧ l.length = 2 ∧
        ∀ i, i < 2 → ∃ p v,
          [[[(1:ℚ), 2], [3, 4]], [[5, 6], [7, 8]]].get? i = some p ∧
          l.get? i = some v ∧
          cellOf p ⌊(1/4 : ℚ) * ((2 : Nat) : ℚ)⌋
            ⌊(1/2 : ℚ) * ((2 : Nat) : ℚ)⌋ = some v) ∧
      featureCell [List.replicate 10 (List.replicate 10 (0 : ℚ))]
        (1/2) (1/2) = some (5, 5) ∧
      featureCell [List.replicate 10 (List.replicate 10 (0 : ℚ))]
        (99/100) 0 = some (9, 0)) :=
  ⟨⟨by decide, by refine ⟨rfl, ?_⟩; intro p hp; fin_cases hp <;> simp,
      by norm_num, by norm_num⟩,
    getFeatureCells_spec [[[(1:ℚ), 2], [3, 4]], [[5, 6], [7, 8]]] 2 2
      (1/2) (1/4) (by decide) (by decide)
      (by refine ⟨rfl, ?_⟩; intro p hp; fin_cases hp <;> simp)
      (by norm_num) (by norm_num)⟩

/-- C3 counterexample: `getFeatureCells` performs NO clamping of
`cellX`/`cellY` to `[0, S-1]`. On a single `2 × 2` panel, a click with
`x = 1.0` produces `cellX = ⌊1 · 2⌋ = 2 > S - 1 = 1`, and the panel
access `panel[cellY][cellX]` is out of range (in the JS code the
extracted entry is `undefined`; here the extraction yields `none`). -/
theorem getFeatureCells_clamp_counterexample :
    featureCell [[[(1:ℚ), 2], [3, 4]]] 1 0 = some (2, 0) ∧
    ¬ ((2 : ℤ) ≤ 2 - 1) ∧
    getFeatureCells [[[(1:ℚ), 2], [3, 4]]] 1 0 = none := by
  have hcx : ⌊(1 : ℚ) * ((2 : Nat) : ℚ)⌋ = 2 := by norm_num
  have hcy : ⌊(0 : ℚ) * ((2 : Nat) : ℚ)⌋ = 0 := by norm_num
  refine ⟨?_, by decide, ?_⟩
  · simp only [featureCell, List.length_cons, List.length_nil]
    norm_num
  · simp only [getFeatureCells, List.length_cons, List.length_nil]
    norm_num
    simp [mapCells, cellOf, listGetZ]

/-- C3 amended: the computed indices are not clamped, but for every
click in the half-open square `[0,1) × [0,1)` every panel access is in
bounds and the extraction succeeds; clamping would only matter at
`x = 1.0` or `y = 1.0`, where the unclamped index `S` is out of
range (see the counterexample). -/
theorem getFeatureCells_inBounds (array : List (List (List ℚ)))
    (D S : Nat) (x y : ℚ) (hD : 1 ≤ D) (hS : 1 ≤ S)
    (hshape : HasShape array D S)
    (hx : 0 ≤ x ∧ x < 1) (hy : 0 ≤ y ∧ y < 1) :
    (getFeatureCells array x y).isSome = true := by
  obtain ⟨hlen, hpanels⟩ := hshape
  cases array with
  | nil => simp at hlen; omega
  | cons p0 rest =>
    have hp0 := hpanels p0 (List.mem_cons_self p0 rest)
    cases p0 with
    | nil => simp at hp0; omega
    | cons r0 rrest =>
      have hr0 : r0.length = S := hp0.2 r0 (List.mem_cons_self r0 rrest)
      have hS0 : (r0 :: rrest).length = S := hp0.1
      obtain ⟨l, hl, -, -⟩ :=
        mapCells_eq ⌊y * (S : ℚ)⌋ ⌊x * (S : ℚ)⌋ ((r0 :: rrest) :: rest)
          (fun p hp => cellOf_isSome p S _ _ (hpanels p hp)
            (floor_mul_mem y S hS hy.1 hy.2)
            (floor_mul_mem x S hS hx.1 hx.2))
      simp only [getFeatureCells]
      rw [hr0, hS0, hl]
      rfl

/-- Witness for the amended C3 at a `1 × 1` panel and click `(0, 0)`. -/
theorem getFeatureCells_inBounds_witness :
    (1 ≤ 1 ∧ HasShape [[[(7:ℚ)]]] 1 1 ∧
      (0 ≤ (0:ℚ) ∧ (0:ℚ) < 1)) ∧
    (getFeatureCells [[[(7:ℚ)]]] 0 0).isSome = true :=
  ⟨⟨by decide, by refine ⟨rfl, ?_⟩; intro p hp; fin_cases hp <;> simp,
      by norm_num⟩,
    getFeatureCells_inBounds [[[(7:ℚ)]]] 1 1 0 0 (by decide) (by decide)
      (by refine ⟨rfl, ?_⟩; intro p hp; fin_cases hp <;> simp)
      (by norm_num) (by norm_num)⟩

/-- The guard of the `FeatureViewer` effect (FeatureViewer.tsx line 71):
`if (!position || !selectedAttr || !canvasRef.current ||
!gridData[selectedAttr]) return;`. JS truthiness: `null`/`undefined`
and the empty string are falsy, while an ARRAY IS TRUTHY EVEN WHEN
EMPTY. (`canvasRef.current` is presentational and omitted.) -/
def featureGuardPasses (position : Option (ℚ × ℚ))
    (selectedAttr : Option String)
    (gridData : String → Option (List (List (List ℚ)))) : Bool :=
  match position, selectedAttr with
  | some _, some attr =>
    if attr = "" then false else (gridData attr).isSome
  | _, _ => false

/-- The `FeatureViewer` effect (FeatureViewer.tsx lines 70-74): early
return (`none`, nothing rendered) when the guard fails, otherwise the
cross-section extraction `getFeatureCells` runs on the selected
attribute's data. -/
def featureEffect (position : Option (ℚ × ℚ))
    (selectedAttr : Option String)
    (gridData : String → Option (List (List (List ℚ)))) : Option (List ℚ) :=
  match position, selectedAttr with
  | some pos, some attr =>
    if attr = "" then none
    else
      match gridData attr with
      | none => none
      | some arr => getFeatureCells arr pos.1 pos.2
  | _, _ => none

/-- C5 counterexample: with a selected attribute whose data is an
empty panel stack (`D = 0`), the guard PASSES (an empty JS array is
truthy), so the effect does attempt the extraction, which indexes into
the empty panel array and fails (`array[0].length` throws in the JS
code); no `NoDataError` is reported anywhere. -/
theorem featureEffect_emptyPanels_counterexample :
    featureGuardPasses (some (1/2, 1/2)) (some ("g"))
      (fun a => if a = ("g") then some [] else none) = true ∧
    getFeatureCells [] (1/2) (1/2) = none ∧
    featureEffect (some (1/2, 1/2)) (some ("g"))
      (fun a => if a = ("g") then some [] else none) = none := by
  refine ⟨by decide, rfl, by simp [featureEffect, getFeatureCells]⟩

/-- C5 amended: when the chosen attribute has no data for the current
timestep (`null`/absent), the effect's guard fails and nothing is
rendered — silently, with no `NoDataError` report; a `D = 0` panel
stack, however, is NOT caught by the guard and the extraction fails on
it (see the counterexample). -/
theorem featureEffect_noData (gridData : String → Option (List (List (List ℚ))))
    (attr : String) (pos : ℚ × ℚ) (h : gridData attr = none) :
    featureGuardPasses (some pos) (some attr) gridData = false ∧
    featureEffect (some pos) (some attr) gridData = none := by
  constructor
  · simp [featureGuardPasses, h]
  · simp [featureEffect, h]

/-- Witness for the amended C5: attribute `g` with no data. -/
theorem featureEffect_noData_witness :
    (fun _ : String => (none : Option (List (List (List ℚ))))) ("g") = none ∧
    (featureGuardPasses (some (0, 0)) (some ("g"))
        (fun _ => none) = false ∧
      featureEffect (some (0, 0)) (some ("g")) (fun _ => none) = none) :=
  ⟨rfl, featureEffect_noData (fun _ => none) ("g") (0, 0) rfl⟩

/-! ## GridViewer.tsx: drawGrid and drawPanel -/

/-- The shared square panel size of `drawGrid` (GridViewer.tsx lines
128-130): `panelSize = Math.min(panelWidth, panelHeight)` with
`panelWidth = Math.floor((canvasWidth - (grid.width - 1) * gridSpacing) / grid.width)`
and symmetrically for the height. -/
def panelSizeOf (grid : Grid) (W H g : ℚ) : ℤ :=
  min ⌊(W - ((grid.width : ℚ) - 1) * g) / (grid.width : ℚ)⌋
    ⌊(H - ((grid.height : ℚ) - 1) * g) / (grid.height : ℚ)⌋

/-- `drawGrid` (GridViewer.tsx lines 122-146) as the list of
`drawPanel(ctx, panel, x, y, panelSize, panelSize)` placements, one per
panel index: `col = index % grid.width`,
`row = Math.floor(index / grid.width)`,
`x = col * (panelSize + gridSpacing)`,
`y = row * (panelSize + gridSpacing)`. -/
def drawGrid (grid : Grid) (W H g : ℚ) : List (ℚ × ℚ × ℤ × ℤ) :=
  (List.range grid.panels.length).map (fun index =>
    (((index % grid.width : Nat) : ℚ) * ((panelSizeOf grid W H g : ℚ) + g),
     ((index / grid.width : Nat) : ℚ) * ((panelSizeOf grid W H g : ℚ) + g),
     panelSizeOf grid W H g, panelSizeOf grid W H g))

/-- C4: panel `i` of a `D`-panel grid drawn into a `W × H` box with
spacing `g` is placed row-major at `col = i % cols`,
`row = ⌊i / cols⌋`, pixel origin
`(col·(cellSize+g), row·(cellSize+g))`, where the cell is square with
side `cellSize = min(⌊(W-(cols-1)g)/cols⌋, ⌊(H-(rows-1)g)/rows⌋)`. -/
theorem drawGrid_spec (grid : Grid) (W H g : ℚ) (i : Nat)
    (hi : i < grid.panels.length) :
    panelSizeOf grid W H g =
      min ⌊(W - ((grid.width : ℚ) - 1) * g) / (grid.width : ℚ)⌋
        ⌊(H - ((grid.height : ℚ) - 1) * g) / (grid.height : ℚ)⌋ ∧
    (drawGrid grid W H g).get? i =
      some (((i % grid.width : Nat) : ℚ) * ((panelSizeOf grid W H g : ℚ) + g),
        ((i / grid.width : Nat) : ℚ) * ((panelSizeOf grid W H g : ℚ) + g),
        panelSizeOf grid W H g, panelSizeOf grid W H g) := by
  refine ⟨rfl, ?_⟩
  unfold drawGrid
  rw [List.get?_map, List.get?_range hi]
  rfl

/-- Witness for C4: one `1 × 1` panel in a `100 × 60` box with
spacing `10`. -/
theorem drawGrid_spec_witness :
    0 < (Grid.mk [[[(5:ℚ)]]] 1 1).panels.length ∧
    (panelSizeOf (Grid.mk [[[(5:ℚ)]]] 1 1) 100 60 10 =
      min ⌊((100:ℚ) - (((Grid.mk [[[(5:ℚ)]]] 1 1).width : ℚ) - 1) * 10) /
          ((Grid.mk [[[(5:ℚ)]]] 1 1).width : ℚ)⌋
        ⌊((60:ℚ) - (((Grid.mk [[[(5:ℚ)]]] 1 1).height : ℚ) - 1) * 10) /
          ((Grid.mk [[[(5:ℚ)]]] 1 1).height : ℚ)⌋ ∧
    (drawGrid (Grid.mk [[[(5:ℚ)]]] 1 1) 100 60 10).get? 0 =
      some (((0 % (Grid.mk [[[(5:ℚ)]]] 1 1).width : Nat) : ℚ) *
          ((panelSizeOf (Grid.mk [[[(5:ℚ)]]] 1 1) 100 60 10 : ℚ) + 10),
        ((0 / (Grid.mk [[[(5:ℚ)]]] 1 1).width : Nat) : ℚ) *
          ((panelSizeOf (Grid.mk [[[(5:ℚ)]]] 1 1) 100 60 10 : ℚ) + 10),
        panelSizeOf (Grid.mk [[[(5:ℚ)]]] 1 1) 100 60 10,
        panelSizeOf (Grid.mk [[[(5:ℚ)]]] 1 1) 100 60 10)) :=
  ⟨by decide, drawGrid_spec (Grid.mk [[[(5:ℚ)]]] 1 1) 100 60 10 0 (by decide)⟩

/-- One `ctx.fillRect` call of `drawPanel` together with the
`ctx.fillStyle` grayscale triple set for it. -/
structure RectCmd where
  x : ℤ
  y : ℤ
  w : ℤ
  h : ℤ
  color : ℚ × ℚ × ℚ
deriving DecidableEq

/-- The fill command drawn by `drawPanel` (GridViewer.tsx lines
148-165) for cell `(i, j)`: value `data[i][j]`, fill style
`rgb(value, value, value)`, rectangle
`(Math.floor(x + j*cellSize), Math.floor(y + i*cellSize),
Math.ceil(cellSize), Math.ceil(cellSize))` with
`cellSize = width / c`, `c = data.length`. -/
def drawPanelCmd (data : List (List ℚ)) (x y w : ℚ) (i j : Nat) : RectCmd :=
  let cellSize : ℚ := w / (data.length : ℚ)
  let value := (data.getD i []).getD j 0
  { x := ⌊x + (j : ℚ) * cellSize⌋
    y := ⌊y + (i : ℚ) * cellSize⌋
    w := ⌈cellSize⌉
    h := ⌈cellSize⌉
    color := (value, value, value) }

/-- `drawPanel` (GridViewer.tsx lines 148-165): the `c × c` double
loop of fill commands. The `height` argument of the JS function is
accepted but unused (the cell size is computed from `width` alone). -/
def drawPanel (data : List (List ℚ)) (x y w _height : ℚ) : List RectCmd :=
  (List.range data.length).flatMap (fun i =>
    (List.range data.length).map (fun j => drawPanelCmd data x y w i j))

lemma floor_add_le_floor_add_ceil (a b : ℚ) : ⌊a + b⌋ ≤ ⌊a⌋ + ⌈b⌉ := by
  have h1 : a + b ≤ a + (⌈b⌉ : ℚ) := by
    have := Int.le_ceil b
    linarith
  calc ⌊a + b⌋ ≤ ⌊a + (⌈b⌉ : ℚ)⌋ := Int.floor_le_floor h1
  _ = ⌊a⌋ + ⌈b⌉ := Int.floor_add_int a _

lemma floor_add_ceil_sub_le_one (a b : ℚ) : ⌊a⌋ + ⌈b⌉ - ⌊a + b⌋ ≤ 1 := by
  have h1 : ⌈b⌉ ≤ ⌊b⌋ + 1 := Int.ceil_le_floor_add_one b
  have h2 : ⌊a⌋ + ⌊b⌋ ≤ ⌊a + b⌋ := by
    apply Int.le_floor.mpr
    push_cast
    exact add_le_add (Int.floor_le a) (Int.floor_le b)
  omega

/-- C8: `drawPanel` fills cell `(i, j)` with the grayscale triple
`(v, v, v)` of its value `v = data[i][j]`, at origin
`(⌊x + j·cellSize⌋, ⌊y + i·cellSize⌋)` (floor) with extent
`⌈cellSize⌉ × ⌈cellSize⌉` (ceil); horizontally and vertically adjacent
cells never leave a gap (the next cell's origin is at most the current
cell's end) and overlap by at most one pixel. -/
theorem drawPanel_spec (data : List (List ℚ)) (x y w h : ℚ) (i j : Nat)
    (hi : i < data.length) (hj : j < data.length) :
    drawPanelCmd data x y w i j ∈ drawPanel data x y w h ∧
    (drawPanelCmd data x y w i j).color =
      ((data.getD i []).getD j 0, (data.getD i []).getD j 0,
        (data.getD i []).getD j 0) ∧
    (drawPanelCmd data x y w i j).x =
      ⌊x + (j : ℚ) * (w / (data.length : ℚ))⌋ ∧
    (drawPanelCmd data x y w i j).w = ⌈w / (data.length : ℚ)⌉ ∧
    (drawPanelCmd data x y w i (j + 1)).x ≤
      (drawPanelCmd data x y w i j).x + (drawPanelCmd data x y w i j).w ∧
    (drawPanelCmd data x y w i j).x + (drawPanelCmd data x y w i j).w -
      (drawPanelCmd data x y w i (j + 1)).x ≤ 1 ∧
    (drawPanelCmd data x y w (i + 1) j).y ≤
      (drawPanelCmd data x y w i j).y + (drawPanelCmd data x y w i j).h ∧
    (drawPanelCmd data x y w i j).y + (drawPanelCmd data x y w i j).h -
      (drawPanelCmd data x y w (i + 1) j).y ≤ 1 := by
  have hkeyx : x + ((j + 1 : Nat) : ℚ) * (w / (data.length : ℚ)) =
      (x + (j : ℚ) * (w / (data.length : ℚ))) + w / (data.length : ℚ) := by
    push_cast
    ring
  have hkeyy : y + ((i + 1 : Nat) : ℚ) * (w / (data.length : ℚ)) =
      (y + (i : ℚ) * (w / (data.length : ℚ))) + w / (data.length : ℚ) := by
    push_cast
    ring
  refine ⟨?_, rfl, rfl, rfl, ?_, ?_, ?_, ?_⟩
  · exact List.mem_flatMap.mpr ⟨i, List.mem_range.mpr hi,
      List.mem_map.mpr ⟨j, List.mem_range.mpr hj, rfl⟩⟩
  · show ⌊x + ((j + 1 : Nat) : ℚ) * (w / (data.length : ℚ))⌋ ≤ _
    rw [hkeyx]
    exact floor_add_le_floor_add_ceil _ _
  · show _ - ⌊x + ((j + 1 : Nat) : ℚ) * (w / (data.length : ℚ))⌋ ≤ 1
    rw [hkeyx]
    exact floor_add_ceil_sub_le_one _ _
  · show ⌊y + ((i + 1 : Nat) : ℚ) * (w / (data.length : ℚ))⌋ ≤ _
    rw [hkeyy]
    exact floor_add_le_floor_add_ceil _ _
  · show _ - ⌊y + ((i + 1 : Nat) : ℚ) * (w / (data.length : ℚ))⌋ ≤ 1
    rw [hkeyy]
    exact floor_add_ceil_sub_le_one _ _

/-- Witness for C8: a `2 × 2` panel drawn at `(0, 0)` with width
`10` (cell size `5`). -/
theorem drawPanel_spec_witness :
    ((0 : Nat) < 2 ∧ (0 : Nat) < 2) ∧
    (drawPanelCmd [[(1:ℚ), 2], [3, 4]] 0 0 10 0 0 ∈
        drawPanel [[(1:ℚ), 2], [3, 4]] 0 0 10 10 ∧
      (drawPanelCmd [[(1:ℚ), 2], [3, 4]] 0 0 10 0 0).color =
        (([[(1:ℚ), 2], [3, 4]].getD 0 []).getD 0 0,
          ([[(1:ℚ), 2], [3, 4]].getD 0 []).getD 0 0,
          ([[(1:ℚ), 2], [3, 4]].getD 0 []).getD 0 0) ∧
      (drawPanelCmd [[(1:ℚ), 2], [3, 4]] 0 0 10 0 0).x =
        ⌊(0:ℚ) + ((0:Nat) : ℚ) * (10 / (([[(1:ℚ), 2], [3, 4]].length : Nat) : ℚ))⌋ ∧
      (drawPanelCmd [[(1:ℚ), 2], [3, 4]] 0 0 10 0 0).w =
        ⌈(10:ℚ) / (([[(1:ℚ), 2], [3, 4]].length : Nat) : ℚ)⌉ ∧
      (drawPanelCmd [[(1:ℚ), 2], [3, 4]] 0 0 10 0 1).x ≤
        (drawPanelCmd [[(1:ℚ), 2], [3, 4]] 0 0 10 0 0).x +
          (drawPanelCmd [[(1:ℚ), 2], [3, 4]] 0 0 10 0 0).w ∧
      (drawPanelCmd [[(1:ℚ), 2], [3, 4]] 0 0 10 0 0).x +
          (drawPanelCmd [[(1:ℚ), 2], [3, 4]] 0 0 10 0 0).w -
        (drawPanelCmd [[(1:ℚ), 2], [3, 4]] 0 0 10 0 1).x ≤ 1 ∧
      (drawPanelCmd [[(1:ℚ), 2], [3, 4]] 0 0 10 1 0).y ≤
        (drawPanelCmd [[(1:ℚ), 2], [3, 4]] 0 0 10 0 0).y +
          (drawPanelCmd [[(1:ℚ), 2], [3, 4]] 0 0 10 0 0).h ∧
      (drawPanelCmd [[(1:ℚ), 2], [3, 4]] 0 0 10 0 0).y +
          (drawPanelCmd [[(1:ℚ), 2], [3, 4]] 0 0 10 0 0).h -
        (drawPanelCmd [[(1:ℚ), 2], [3, 4]] 0 0 10 1 0).y ≤ 1) :=
  ⟨⟨by decide, by decide⟩,
    drawPanel_spec [[(1:ℚ), 2], [3, 4]] 0 0 10 10 0 0 (by decide) (by decide)⟩

/-! ## Sidebar.tsx: attribute listing and dtype partition -/

/-- The internal-prefix filter of `fetchAttributes` (Sidebar.tsx line
33): `attrData.attributes.filter(attr => !attr.startsWith("_"))`. -/
def fetchAttributesFiltered (attributes : List String) : List String :=
  attributes.filter (fun attr => !(attr.startsWith ("_")))

/-- `setColorAttributes(attributes.filter(attr => dtypes[attr] ===
"RlvizType.COLOR"))` (Sidebar.tsx line 43); `dtypes` is the fetched
record, `none` modelling an absent key (`undefined`, which `===`
compares unequal to every string). -/
def colorAttributes (names : List String) (dtypes : String → Option String) :
    List String :=
  (fetchAttributesFiltered names).filter
    (fun attr => decide (dtypes attr = some ("RlvizType.COLOR")))

/-- `setTextAttributes(...)` (Sidebar.tsx line 44). -/
def textAttributes (names : List String) (dtypes : String → Option String) :
    List String :=
  (fetchAttributesFiltered names).filter
    (fun attr => decide (dtypes attr = some ("RlvizType.TEXT")))

/-- `setGridAttributes(...)` (Sidebar.tsx line 45). -/
def gridAttributes (names : List String) (dtypes : String → Option String) :
    List String :=
  (fetchAttributesFiltered names).filter
    (fun attr => decide (dtypes attr = some ("RlvizType.GRID")))

/-- C6: the attribute list kept by the sidebar is exactly the fetched
names without the reserved `"_"` prefix, in their original order
(`fetchAttributesFiltered names` is a sublist of `names`, so the
surviving names keep their relative listing order). -/
theorem fetchAttributes_filter_spec (names : List String) :
    (∀ a, a ∈ fetchAttributesFiltered names ↔
      (a ∈ names ∧ ¬ (a.startsWith ("_") = true))) ∧
    List.Sublist (fetchAttributesFiltered names) names := by
  constructor
  · intro a
    simp [fetchAttributesFiltered]
  · exact List.filter_sublist names

/-- C10: the three dtype groups are determined by exact string
equality with `"RlvizType.COLOR"` / `"RlvizType.GRID"` /
`"RlvizType.TEXT"`, so each attribute lands in at most one group, and
an attribute whose dtype matches none of the three strings appears in
no group. -/
theorem dtypePartition_spec (names : List String)
    (dtypes : String → Option String) (a : String) :
    (a ∈ colorAttributes names dtypes →
      dtypes a = some ("RlvizType.COLOR") ∧
      a ∉ gridAttributes names dtypes ∧ a ∉ textAttributes names dtypes) ∧
    (a ∈ gridAttributes names dtypes →
      dtypes a = some ("RlvizType.GRID") ∧
      a ∉ colorAttributes names dtypes ∧ a ∉ textAttributes names dtypes) ∧
    (a ∈ textAttributes names dtypes →
      dtypes a = some ("RlvizType.TEXT") ∧
      a ∉ colorAttributes names dtypes ∧ a ∉ gridAttributes names dtypes) ∧
    ((dtypes a ≠ some ("RlvizType.COLOR") ∧
        dtypes a ≠ some ("RlvizType.GRID") ∧
        dtypes a ≠ some ("RlvizType.TEXT")) →
      a ∉ colorAttributes names dtypes ∧
      a ∉ gridAttributes names dtypes ∧ a ∉ textAttributes names dtypes) := by
  simp only [colorAttributes, gridAttributes, textAttributes,
    List.mem_filter, decide_eq_true_eq, not_and]
  refine ⟨?_, ?_, ?_, ?_⟩
  · rintro ⟨hmem, heq⟩
    exact ⟨heq, fun _ h2 => absurd (heq.symm.trans h2) (by decide),
      fun _ h2 => absurd (heq.symm.trans h2) (by decide)⟩
  · rintro ⟨hmem, heq⟩
    exact ⟨heq, fun _ h2 => absurd (heq.symm.trans h2) (by decide),
      fun _ h2 => absurd (heq.symm.trans h2) (by decide)⟩
  · rintro ⟨hmem, heq⟩
    exact ⟨heq, fun _ h2 => absurd (heq.symm.trans h2) (by decide),
      fun _ h2 => absurd (heq.symm.trans h2) (by decide)⟩
  · rintro ⟨h1, h2, h3⟩
    exact ⟨fun _ h => h1 h, fun _ h => h2 h, fun _ h => h3 h⟩

/-- Witness for C6 at a concrete attribute list with one internally
prefixed name. -/
theorem fetchAttributes_filter_spec_witness :
    (∀ a, a ∈ fetchAttributesFiltered ["obs", "_internal", "latent"] ↔
      (a ∈ (["obs", "_internal", "latent"] : List String) ∧
        ¬ (a.startsWith ("_") = true))) ∧
    List.Sublist (fetchAttributesFiltered ["obs", "_internal", "latent"])
      ["obs", "_internal", "latent"] :=
  fetchAttributes_filter_spec ["obs", "_internal", "latent"]

/-- Witness for C10 at a one-attribute store whose dtype is COLOR. -/
theorem dtypePartition_spec_witness :
    (("obs" : String) ∈ colorAttributes ["obs"]
        (fun _ => some ("RlvizType.COLOR")) →
      (fun _ : String => some ("RlvizType.COLOR")) ("obs") =
        some ("RlvizType.COLOR") ∧
      ("obs" : String) ∉ gridAttributes ["obs"]
        (fun _ => some ("RlvizType.COLOR")) ∧
      ("obs" : String) ∉ textAttributes ["obs"]
        (fun _ => some ("RlvizType.COLOR"))) ∧
    (("obs" : String) ∈ gridAttributes ["obs"]
        (fun _ => some ("RlvizType.COLOR")) →
      (fun _ : String => some ("RlvizType.COLOR")) ("obs") =
        some ("RlvizType.GRID") ∧
      ("obs" : String) ∉ colorAttributes ["obs"]
        (fun _ => some ("RlvizType.COLOR")) ∧
      ("obs" : String) ∉ textAttributes ["obs"]
        (fun _ => some ("RlvizType.COLOR"))) ∧
    (("obs" : String) ∈ textAttributes ["obs"]
        (fun _ => some ("RlvizType.COLOR")) →
      (fun _ : String => some ("RlvizType.COLOR")) ("obs") =
        some ("RlvizType.TEXT") ∧
      ("obs" : String) ∉ colorAttributes ["obs"]
        (fun _ => some ("RlvizType.COLOR")) ∧
      ("obs" : String) ∉ gridAttributes ["obs"]
        (fun _ => some ("RlvizType.COLOR"))) ∧
    (((fun _ : String => some ("RlvizType.COLOR")) ("obs") ≠
          some ("RlvizType.COLOR") ∧
        (fun _ : String => some ("RlvizType.COLOR")) ("obs") ≠
          some ("RlvizType.GRID") ∧
        (fun _ : String => some ("RlvizType.COLOR")) ("obs") ≠
          some ("RlvizType.TEXT")) →
      ("obs" : String) ∉ colorAttributes ["obs"]
        (fun _ => some ("RlvizType.COLOR")) ∧
      ("obs" : String) ∉ gridAttributes ["obs"]
        (fun _ => some ("RlvizType.COLOR")) ∧
      ("obs" : String) ∉ textAttributes ["obs"]
        (fun _ => some ("RlvizType.COLOR"))) :=
  dtypePartition_spec ["obs"] (fun _ => some ("RlvizType.COLOR")) ("obs")

/-! ## ImageViewer / GridViewer / TextViewer: per-timestep fetch -/

/-- The `fetchData` state transition of ImageViewer.tsx (lines 11-39):
with nothing selected the image record is cleared; a failed request
(non-ok response or thrown error, `response = none`) is caught with
only a `console.error`, leaving the previous state; a successful
response replaces the state with the filtered record
(`attr in data.data && typeof data.data[attr] === "string"`, here
`data attr = some s`), each value prefixed for the data URL. -/
def imageFetchUpdate (prev : List (String × String)) (selected : List String)
    (response : Option (String → Option String)) : List (String × String) :=
  if selected = [] then []
  else
    match response with
    | none => prev
    | some data => selected.filterMap (fun attr =>
        (data attr).map (fun s =>
          (attr, String.append ("data:image/png;base64,") s)))

/-- The `fetchData` state transition of GridViewer.tsx (lines 31-58):
same shape, keeping attributes with `Array.isArray(data.data[attr])`
(here `data attr = some g`). -/
def gridFetchUpdate (prev : List (String × List (List (List ℚ))))
    (selected : List String)
    (response : Option (String → Option (List (List (List ℚ))))) :
    List (String × List (List (List ℚ))) :=
  if selected = [] then []
  else
    match response with
    | none => prev
    | some data => selected.filterMap (fun attr =>
        (data attr).map (fun g => (attr, g)))

/-- The `fetchData` state transition of TextViewer.tsx (lines 11-39):
same shape, keeping attributes present in the response
(`attr in data.data`). -/
def textFetchUpdate (prev : List (String × (String ⊕ List String)))
    (selected : List String)
    (response : Option (String → Option (String ⊕ List String))) :
    List (String × (String ⊕ List String)) :=
  if selected = [] then []
  else
    match response with
    | none => prev
    | some data => selected.filterMap (fun attr =>
        (data attr).map (fun t => (attr, t)))

/-- C7: when a per-timestep request fails (`response = none`) while
attributes are selected, each viewer's stored state is left exactly as
it was; and the state produced by any later successful response does
not depend on the state held before it (no shared mutable request
state carries over a failure). -/
theorem fetchFailure_preservesState (selected : List String)
    (hsel : selected ≠ [])
    (prevImg : List (String × String))
    (prevGrid : List (String × List (List (List ℚ))))
    (prevText : List (String × (String ⊕ List String))) :
    imageFetchUpdate prevImg selected none = prevImg ∧
    gridFetchUpdate prevGrid selected none = prevGrid ∧
    textFetchUpdate prevText selected none = prevText ∧
    (∀ p q data, imageFetchUpdate p selected (some data) =
      imageFetchUpdate q selected (some data)) ∧
    (∀ p q data, gridFetchUpdate p selected (some data) =
      gridFetchUpdate q selected (some data)) ∧
    (∀ p q data, textFetchUpdate p selected (some data) =
      textFetchUpdate q selected (some data)) := by
  simp [imageFetchUpdate, gridFetchUpdate, textFetchUpdate, hsel]

/-- Witness for C7 with one selected attribute and nonempty previous
states. -/
theorem fetchFailure_preservesState_witness :
    (["a"] : List String) ≠ [] ∧
    (imageFetchUpdate [("b", "old")] ["a"] none = [("b", "old")] ∧
      gridFetchUpdate [("b", [[[0]]])] ["a"] none = [("b", [[[0]]])] ∧
      textFetchUpdate [("b", Sum.inl ("t"))] ["a"] none =
        [("b", Sum.inl ("t"))] ∧
      (∀ p q data, imageFetchUpdate p ["a"] (some data) =
        imageFetchUpdate q ["a"] (some data)) ∧
      (∀ p q data, gridFetchUpdate p ["a"] (some data) =
        gridFetchUpdate q ["a"] (some data)) ∧
      (∀ p q data, textFetchUpdate p ["a"] (some data) =
        textFetchUpdate q ["a"] (some data))) :=
  ⟨by decide, fetchFailure_preservesState ["a"] (by decide)
    [("b", "old")] [("b", [[[0]]])] [("b", Sum.inl ("t"))]⟩

/-! ## TimestepSlider (GridViewer.tsx second document): keyboard
navigation -/

/-- The `handleKeyDown` update of `TimestepSlider` (GridViewer.tsx
lines 220-238): `ArrowLeft ↦ Math.max(0, prev - 1)`,
`ArrowRight ↦ Math.min(numTimesteps - 1, prev + 1)`, any other key
leaves the timestep unchanged. -/
def handleKeyDown (numTimesteps : ℤ) (key : String) (prevTimestep : ℤ) : ℤ :=
  if key = ("ArrowLeft") then max 0 (prevTimestep - 1)
  else if key = ("ArrowRight") then min (numTimesteps - 1) (prevTimestep + 1)
  else prevTimestep

/-- C9: for `numTimesteps ≥ 1` and a current timestep
`t ∈ [0, numTimesteps - 1]`, ArrowLeft yields `max(0, t-1)`,
ArrowRight yields `min(numTimesteps - 1, t+1)`, and any key press
keeps the timestep within `[0, numTimesteps - 1]`. -/
theorem handleKeyDown_spec (numTimesteps t : ℤ) (key : String)
    (hn : 1 ≤ numTimesteps) (ht : 0 ≤ t ∧ t ≤ numTimesteps - 1) :
    handleKeyDown numTimesteps ("ArrowLeft") t = max 0 (t - 1) ∧
    handleKeyDown numTimesteps ("ArrowRight") t =
      min (numTimesteps - 1) (t + 1) ∧
    0 ≤ handleKeyDown numTimesteps key t ∧
    handleKeyDown numTimesteps key t ≤ numTimesteps - 1 := by
  refine ⟨by simp [handleKeyDown], by simp [handleKeyDown], ?_, ?_⟩
  · unfold handleKeyDown
    split
    · omega
    · split
      · omega
      · omega
  · unfold handleKeyDown
    split
    · omega
    · split
      · omega
      · omega

/-- Witness for C9 at `numTimesteps = 3`, `t = 0`, key `"a"`. -/
theorem handleKeyDown_spec_witness :
    (1 ≤ (3 : ℤ) ∧ (0 ≤ (0 : ℤ) ∧ (0 : ℤ) ≤ 3 - 1)) ∧
    (handleKeyDown 3 ("ArrowLeft") 0 = max 0 (0 - 1) ∧
      handleKeyDown 3 ("ArrowRight") 0 = min ((3 : ℤ) - 1) (0 + 1) ∧
      0 ≤ handleKeyDown 3 ("a") 0 ∧
      handleKeyDown 3 ("a") 0 ≤ 3 - 1) :=
  ⟨⟨by decide, by decide⟩,
    handleKeyDown_spec 3 0 ("a") (by decide) (by decide)⟩

end RlViz
